import Mathlib

/-!
Verification development for the c3-exporter ingestion gateway
(`src/internal/server/handlers.go`, `context.go`, `server.go`).

The request-forwarding pipeline is shallowly embedded: each HTTP handler
becomes a pure function from an inbound request, a destination, and a
backend behaviour (a function from attempt index to attempt result) to a
`HandlerResult` record collecting everything the handler wrote to the
caller, dispatched to the backend, and recorded in the metrics client.
Library code that is not part of the repository (compress/gzip,
hashicorp/go-retryablehttp) is modelled from the spec, as marked on the
corresponding definitions.
-/

namespace C3Exporter

/-- A byte of a request or response body, `0 ≤ b` (values beyond 255 never
arise in the theorems; bodies are abstract byte lists). -/
abbrev Byte := Nat

/-- A trapmetrics tag (`trapmetrics.Tag` with `Category`/`Value`). -/
structure Tag where
  category : String
  value : String
deriving Repr, DecidableEq

/-- One invocation of the metrics recorder: either
`CounterIncrementByValue` (value is the Go `uint64` argument) or
`HistogramRecordValue` (the Go `float64` argument; exact for the integral
content lengths that reach it, so it is kept as `Int`). -/
inductive MetricCall
  | counter (name : String) (tags : List Tag) (value : Nat)
  | histogram (name : String) (tags : List Tag) (value : Int)
deriving Repr, DecidableEq

/-- `config.Destination`: the fields the forwarding path reads. -/
structure Destination where
  host : String
  port : String
  enableTLS : Bool
deriving Repr, DecidableEq

/-- The inbound `*http.Request` as seen by the handlers.
`basicAuth` is the parsed result of `r.BasicAuth()` (`none` when the
header is absent or malformed).  `ctxUser`/`ctxPass` model
`r.Context().Value(basicAuthUser).(string)` and the password analogue:
`some s` when a string-typed value is installed, `none` when the value is
absent or not a string (the failed comma-ok type assertion).
`bodyReadError` models `io.Copy` failing while reading `r.Body`.
`contentLength` is `r.ContentLength` (`-1` when unknown, e.g. chunked). -/
structure HttpRequest where
  method : String
  path : String
  rawQuery : String
  proto : String
  basicAuth : Option (String × String)
  xForwardedFor : String
  remoteAddr : String
  contentType : String
  body : List Byte
  bodyReadError : Bool
  contentLength : Int
  ctxUser : Option String
  ctxPass : Option String
deriving Repr, DecidableEq

/-- The outbound request handed to the retrying client:
method, full target URL string, headers set via `req.Header.Set`,
basic-auth pair, declared `ContentLength`, and whether a body was
attached. -/
structure OutboundRequest where
  method : String
  url : String
  headers : List (String × String)
  basicUser : String
  basicPass : String
  contentLength : Nat
  hasBody : Bool
deriving Repr, DecidableEq

/-- `net.JoinHostPort`: bracket the host when it contains a colon. -/
def joinHostPort (host port : String) : String :=
  if ':' ∈ host.data then "[" ++ host ++ "]:" ++ port
  else host ++ ":" ++ port

/-- `r.URL.String()` for a server-side request URL: path, then the raw
query after `?` when present. -/
def requestURLString (r : HttpRequest) : String :=
  r.path ++ (if r.rawQuery = "" then "" else "?" ++ r.rawQuery)

/-- Modelled from the spec: the Body Compressor's gzip transform
(`compress/gzip`, Go standard library, not under `src/`).  The spec
requires only that compression is an invertible byte-to-byte encoding
with a gzip member framing; the model uses the two gzip magic bytes, the
payload, and a one-byte size check (standing in for ISIZE). -/
def gzipCompress (bs : List Byte) : List Byte :=
  31 :: 139 :: (bs ++ [bs.length % 256])

/-- Modelled from the spec: the inverse gzip transform (Go standard
library, not under `src/`).  Fails on input that is not a compressed
member produced by `gzipCompress`. -/
def gzipDecompress : List Byte → Option (List Byte)
  | 31 :: 139 :: rest =>
      if rest.getLast? = some (rest.dropLast.length % 256) then
        some rest.dropLast
      else none
  | _ => none

/-- Result of one backend attempt: a transport-level error, or a response
with a status code and a body. -/
inductive AttemptResult
  | err
  | resp (status : Nat) (body : List Byte)

/-- Modelled from the spec: the retry classification of
`retryablehttp.ErrorPropagatedRetryPolicy` (hashicorp/go-retryablehttp
v0.7.1, not under `src/`): retry on status 0, 429, or 5xx other than 501. -/
def retryableStatus (s : Nat) : Bool :=
  s == 0 || s == 429 || (500 ≤ s && s ≠ 501)

/-- Modelled from the spec: an attempt is retried when the send fails at
the transport level or when the response status is classified retryable. -/
def shouldRetry : AttemptResult → Bool
  | .err => true
  | .resp s _ => retryableStatus s

/-- Outcome of `retryClient.Do`: `result = some (status, body)` when a
usable response is returned, `none` when `Do` returns an error (transport
failure or retry budget exhausted); `attempts` counts backend
invocations; `trace` lists the 0-based indices of the attempts in the
order they were made. -/
structure DoOutcome where
  result : Option (Nat × List Byte)
  attempts : Nat
  trace : List Nat
deriving Repr, DecidableEq

/-- Modelled from the spec: the bounded-retry dispatch loop of
`retryablehttp.Client.Do` (hashicorp/go-retryablehttp v0.7.1, not under
`src/`).  Attempt `i` runs, the classification decides whether to retry,
and `remain` (initially `RetryMax`) bounds the attempts still allowed
after the current one; on exhaustion with a retryable outcome `Do`
returns an error and no response. -/
def doLoop (backend : Nat → AttemptResult) : Nat → Nat → DoOutcome
  | i, 0 =>
      match backend i with
      | .err => ⟨none, i + 1, [i]⟩
      | .resp s b =>
          if retryableStatus s then ⟨none, i + 1, [i]⟩
          else ⟨some (s, b), i + 1, [i]⟩
  | i, remain + 1 =>
      match backend i with
      | .err =>
          let d := doLoop backend (i + 1) remain
          ⟨d.result, d.attempts, i :: d.trace⟩
      | .resp s b =>
          if retryableStatus s then
            let d := doLoop backend (i + 1) remain
            ⟨d.result, d.attempts, i :: d.trace⟩
          else ⟨some (s, b), i + 1, [i]⟩

/-- Modelled from the spec: `retryClient.Do` with the configured
`RetryMax` (the handlers set `RetryMax = 7`). -/
def clientDo (backend : Nat → AttemptResult) (retryMax : Nat) : DoOutcome :=
  doLoop backend 0 retryMax

/-- Go's `uint64(n)` conversion of an `int64` content length: reduction
modulo `2^64`, so `-1` becomes `2^64 - 1`. -/
def goUInt64 (n : Int) : Nat :=
  (n % (2 : Int) ^ 64).toNat

/-- Everything a handler invocation produced: the status and headers
written to the caller, the backend body relayed, the `http.Error` text,
the outbound request dispatched (if any), the number of backend attempts,
the metrics-recorder invocations in order, whether the gzip buffer was
built, and whether the handler panicked (nil-response dereference). -/
structure HandlerResult where
  status : Option Nat := none
  headers : List (String × String) := []
  relayedBody : Option (List Byte) := none
  errorText : Option String := none
  outbound : Option OutboundRequest := none
  attempts : Nat := 0
  metricCalls : List MetricCall := []
  compressed : Bool := false
  panicked : Bool := false
deriving Repr, DecidableEq

/-- The `WWW-Authenticate` challenge value set on a 401. -/
def basicChallenge : String := "Basic realm=\"restricted\", charset=\"UTF-8\""

/-- `Server.serverError` (handlers.go lines 255-259): logs with a stack
and answers `http.Error(w, http.StatusText(500), 500)`. -/
def serverErrorResult : HandlerResult :=
  { status := some 500, errorText := some "Internal Server Error" }

/-- The `X-Forwarded-For` value: the inbound header if set, else the
peer address. -/
def remoteOf (r : HttpRequest) : String :=
  if r.xForwardedFor = "" then r.remoteAddr else r.xForwardedFor

/-- `release.NAME + "/" + release.Version` (release.go). -/
def userAgent : String := "c3-exporter/dev"

/-- The metrics-recorder invocations both pass-through handlers make
after dispatch (handlers.go lines 446-454 and 735-743): counter and
histogram tagged by units+path, then counter and histogram additionally
tagged by the account (the credential username). -/
def dispatchMetricCalls (path username : String) (cl : Int) : List MetricCall :=
  [.counter "log_size" [⟨"units", "bytes"⟩, ⟨"path", path⟩] (goUInt64 cl),
   .histogram "log_size_h" [⟨"units", "bytes"⟩, ⟨"path", path⟩] cl,
   .counter "log_size"
      [⟨"units", "bytes"⟩, ⟨"path", path⟩, ⟨"ingest_acct", username⟩] (goUInt64 cl),
   .histogram "log_size_h"
      [⟨"units", "bytes"⟩, ⟨"path", path⟩, ⟨"ingest_acct", username⟩] cl]

/-- Embedding of `bulkHandler.ServeHTTP`
(src/internal/server/handlers.go, current revision, lines 288-481).
Logging calls are elided; everything observable to the caller, the
backend, and the metrics client is kept.  Note: the target URL takes only
`r.URL.Path` (line 370) — the raw query is never copied — and on a
`retryClient.Do` error the `http.Error` branch is commented out in the
source (lines 442-443), so the handler falls through to the metrics
calls and panics dereferencing the nil response at `WriteHeader`
(line 457). -/
def bulkServeHTTP (dest : Destination) (dataToken : String) (r : HttpRequest)
    (backend : Nat → AttemptResult) : HandlerResult :=
  if r.method ≠ "POST" then
    { status := some 405, errorText := some "method not supported" }
  else
    match r.basicAuth with
    | none =>
        { status := some 401, errorText := some "Unauthorized",
          headers := [("WWW-Authenticate", basicChallenge)] }
    | some (username, password) =>
        if r.bodyReadError then
          { status := some 500, errorText := some "compressing body" }
        else
          let buf := gzipCompress r.body
          let scheme := if dest.enableTLS then "https" else "http"
          let destURL := scheme ++ "://" ++ joinHostPort dest.host dest.port ++ r.path
          let outReq : OutboundRequest :=
            { method := r.method, url := destURL,
              headers :=
                [("X-Circonus-Auth-Token", dataToken),
                 ("Content-Type", r.contentType),
                 ("Content-Encoding", "gzip"),
                 ("Connection", "close"),
                 ("User-Agent", userAgent),
                 ("X-Forwarded-For", remoteOf r)],
              basicUser := username, basicPass := password,
              contentLength := buf.length, hasBody := true }
          let d := clientDo backend 7
          let mcs := dispatchMetricCalls r.path username r.contentLength
          match d.result with
          | none =>
              { status := none,
                headers := [("Content-Type", "application/json; charset=utf-8")],
                outbound := some outReq, attempts := d.attempts,
                metricCalls := mcs, compressed := true, panicked := true }
          | some (s, b) =>
              { status := some s,
                headers := [("Content-Type", "application/json; charset=utf-8")],
                relayedBody := some b, outbound := some outReq,
                attempts := d.attempts, metricCalls := mcs, compressed := true }

/-- Embedding of `Server.genericRequest`
(src/internal/server/handlers.go, current revision, lines 571-792).
Credentials come from the request context installed by the auth
middleware; a body is compressed and attached only for PUT/POST; the
target URL appends `r.URL.String()` (path plus query, line 652); on a
`retryClient.Do` error the `serverError` branch is commented out in the
source (lines 731-732), so the handler falls through to the metrics calls
and panics dereferencing the nil response at `resp.StatusCode`
(line 752). -/
def genericRequestServe (dest : Destination) (apiKey : String) (r : HttpRequest)
    (backend : Nat → AttemptResult) : HandlerResult :=
  match r.ctxUser with
  | none => serverErrorResult
  | some username =>
      match r.ctxPass with
      | none => serverErrorResult
      | some password =>
          let hasBody := r.method == "PUT" || r.method == "POST"
          if hasBody && r.bodyReadError then serverErrorResult
          else
            let buf := if hasBody then gzipCompress r.body else []
            let newURL := (if dest.enableTLS then "https://" else "http://")
              ++ joinHostPort dest.host dest.port ++ requestURLString r
            let outReq : OutboundRequest :=
              { method := r.method, url := newURL,
                headers :=
                  [("X-Circonus-Auth-Token", apiKey)]
                  ++ (if hasBody then
                        [("Content-Type", r.contentType), ("Content-Encoding", "gzip")]
                      else [])
                  ++ [("Connection", "close"),
                      ("User-Agent", userAgent),
                      ("X-Forwarded-For", remoteOf r)],
                basicUser := username, basicPass := password,
                contentLength := buf.length,
                hasBody := hasBody }
            let d := clientDo backend 7
            let mcs := dispatchMetricCalls r.path username r.contentLength
            match d.result with
            | none =>
                { status := none,
                  headers := [("Content-Type", "application/json; charset=utf-8")],
                  outbound := some outReq, attempts := d.attempts,
                  metricCalls := mcs, compressed := hasBody, panicked := true }
            | some (s, b) =>
                if s ≠ 200 then
                  { status := some s,
                    headers := [("Content-Type", "application/json; charset=utf-8")],
                    relayedBody := some b, outbound := some outReq,
                    attempts := d.attempts, metricCalls := mcs,
                    compressed := hasBody }
                else
                  { status := some 200,
                    headers := [("Content-Type", "application/json; charset=utf-8")],
                    relayedBody := some b, outbound := some outReq,
                    attempts := d.attempts, metricCalls := mcs,
                    compressed := hasBody }

/-- Embedding of the older revision of `Server.genericRequest` kept in
src/internal/server/context.go (lines 344-560).  Identical forwarding
pipeline, but on a `retryClient.Do` error this revision still calls
`s.serverError` and returns (lines 494-496): the caller gets a 500 and
the metrics calls are skipped. -/
def genericRequestCtxServe (dest : Destination) (apiKey : String) (r : HttpRequest)
    (backend : Nat → AttemptResult) : HandlerResult :=
  match r.ctxUser with
  | none => serverErrorResult
  | some username =>
      match r.ctxPass with
      | none => serverErrorResult
      | some password =>
          let hasBody := r.method == "PUT" || r.method == "POST"
          if hasBody && r.bodyReadError then serverErrorResult
          else
            let buf := if hasBody then gzipCompress r.body else []
            let newURL := (if dest.enableTLS then "https://" else "http://")
              ++ joinHostPort dest.host dest.port ++ requestURLString r
            let outReq : OutboundRequest :=
              { method := r.method, url := newURL,
                headers :=
                  [("X-Circonus-Auth-Token", apiKey)]
                  ++ (if hasBody then
                        [("Content-Type", r.contentType), ("Content-Encoding", "gzip"),
                         ("Accept-Encoding", "gzip")]
                      else [])
                  ++ [("Connection", "close"),
                      ("User-Agent", userAgent),
                      ("X-Forwarded-For", remoteOf r)],
                basicUser := username, basicPass := password,
                contentLength := buf.length,
                hasBody := hasBody }
            let d := clientDo backend 7
            match d.result with
            | none =>
                { status := some 500, errorText := some "Internal Server Error",
                  outbound := some outReq, attempts := d.attempts,
                  compressed := hasBody }
            | some (s, b) =>
                let mcs := dispatchMetricCalls r.path username r.contentLength
                if s ≠ 200 then
                  { status := some s,
                    headers := [("Content-Type", "application/json; charset=utf-8")],
                    relayedBody := some b, outbound := some outReq,
                    attempts := d.attempts, metricCalls := mcs,
                    compressed := hasBody }
                else
                  { status := some 200,
                    headers := [("Content-Type", "application/json; charset=utf-8")],
                    relayedBody := some b, outbound := some outReq,
                    attempts := d.attempts, metricCalls := mcs,
                    compressed := hasBody }

/-- Embedding of `Server.verifyBasicAuth`
(src/internal/server/handlers.go lines 794-811): without a basic-auth
pair, answer 401 with the challenge header and stop; otherwise install
the pair in the request context and run the wrapped handler. -/
def verifyBasicAuth (next : HttpRequest → HandlerResult) (r : HttpRequest) :
    HandlerResult :=
  match r.basicAuth with
  | none =>
      { status := some 401, errorText := some "Unauthorized",
        headers := [("WWW-Authenticate", basicChallenge)] }
  | some (username, password) =>
      next { r with ctxUser := some username, ctxPass := some password }

/-- One scheduler event observed by the flush goroutine's `select`:
the process-wide cancellation fires, or the ticker fires and the flush
call returns (with or without an error). -/
inductive FlushEvent
  | ctxDone
  | tick (flushErr : Bool)
deriving Repr, DecidableEq

/-- What the flush goroutine did: how many flushes it performed and how
many warnings it logged. -/
structure FlushTrace where
  flushes : Nat
  warns : Nat
deriving Repr, DecidableEq

/-- Embedding of the metrics flush goroutine in `Server.Start`
(src/internal/server/server.go lines 112-137).  Timer nondeterminism is
abstracted into the event sequence: on `ctx.Done` the goroutine returns;
on a tick it flushes, logs a warning if the flush errored, and loops. -/
def flushLoop : List FlushEvent → FlushTrace
  | [] => ⟨0, 0⟩
  | .ctxDone :: _ => ⟨0, 0⟩
  | .tick e :: rest =>
      let t := flushLoop rest
      ⟨t.flushes + 1, t.warns + if e then 1 else 0⟩

/-- Whether a flush-loop event is a ticker tick (not the cancellation). -/
def FlushEvent.isTick : FlushEvent → Bool
  | .ctxDone => false
  | .tick _ => true

/-- Whether a flush-loop event is a tick whose flush call failed. -/
def FlushEvent.isFailTick : FlushEvent → Bool
  | .ctxDone => false
  | .tick e => e

/-- Following the spec's words ("builds the target URL from Destination
host/port plus original path and query"): the target URL the spec
prescribes, to be compared with what the handlers build. -/
def specTargetURL (dest : Destination) (r : HttpRequest) : String :=
  (if dest.enableTLS then "https://" else "http://")
    ++ joinHostPort dest.host dest.port ++ r.path
    ++ (if r.rawQuery = "" then "" else "?" ++ r.rawQuery)

/-- A backend whose first `n` attempts fail at the transport level and
which then answers 200 with `body`. -/
def failThenOk (n : Nat) (body : List Byte) : Nat → AttemptResult :=
  fun i => if i < n then .err else .resp 200 body

/-- A backend that always fails at the transport level. -/
def alwaysErrBackend : Nat → AttemptResult := fun _ => .err

/-- A backend that immediately answers 200 with body `{}`. -/
def okBackend : Nat → AttemptResult := fun _ => .resp 200 [123, 125]

/-- A sample destination used by concrete witnesses. -/
def exDest : Destination :=
  { host := "backend.example", port := "9200", enableTLS := false }

/-- A well-formed authenticated POST to `/_bulk` carrying a query string,
used by concrete witnesses. -/
def exReq : HttpRequest :=
  { method := "POST", path := "/_bulk", rawQuery := "refresh=true",
    proto := "HTTP/1.1", basicAuth := some ("alice", "pw"),
    xForwardedFor := "", remoteAddr := "10.0.0.1:1234",
    contentType := "application/json", body := [65, 66, 67],
    bodyReadError := false, contentLength := 3,
    ctxUser := some "alice", ctxPass := some "pw" }

/-- `goUInt64` on a nonnegative length below `2^64` is the identity. -/
theorem goUInt64_natCast (n : Nat) (h : n < 2 ^ 64) : goUInt64 (n : Int) = n := by
  unfold goUInt64
  rw [show ((2 : Int) ^ 64) = ((2 ^ 64 : Nat) : Int) by push_cast,
    ← Int.natCast_mod, Int.toNat_natCast, Nat.mod_eq_of_lt h]

/-- C1: an inbound request to a protected endpoint with no basic-auth
credential pair is answered 401 Unauthorized with a `WWW-Authenticate`
challenge header — by the auth middleware, and likewise by the bulk
handler's own check — with no outbound call made, no metrics recorded,
and the compressed payload never built. -/
theorem missing_credentials_rejected
    (next : HttpRequest → HandlerResult) (r : HttpRequest)
    (dest : Destination) (dataToken : String) (backend : Nat → AttemptResult)
    (h : r.basicAuth = none) :
    (verifyBasicAuth next r).status = some 401 ∧
    ("WWW-Authenticate", basicChallenge) ∈ (verifyBasicAuth next r).headers ∧
    (verifyBasicAuth next r).outbound = none ∧
    (verifyBasicAuth next r).metricCalls = [] ∧
    (verifyBasicAuth next r).attempts = 0 ∧
    (verifyBasicAuth next r).compressed = false ∧
    (r.method = "POST" →
      (bulkServeHTTP dest dataToken r backend).status = some 401 ∧
      ("WWW-Authenticate", basicChallenge) ∈
        (bulkServeHTTP dest dataToken r backend).headers ∧
      (bulkServeHTTP dest dataToken r backend).outbound = none ∧
      (bulkServeHTTP dest dataToken r backend).metricCalls = [] ∧
      (bulkServeHTTP dest dataToken r backend).compressed = false) := by
  refine ⟨?_, ?_, ?_, ?_, ?_, ?_, ?_⟩ <;>
    first
      | simp [verifyBasicAuth, h]
      | (intro hm; simp [bulkServeHTTP, h, hm])

/-- C1 witness: the 401 path at a concrete unauthenticated request. -/
theorem missing_credentials_rejected_witness :
    (verifyBasicAuth (fun _ => {}) { exReq with basicAuth := none }).status
      = some 401 ∧
    ("WWW-Authenticate", basicChallenge) ∈
      (verifyBasicAuth (fun _ => {}) { exReq with basicAuth := none }).headers ∧
    (verifyBasicAuth (fun _ => {}) { exReq with basicAuth := none }).outbound
      = none ∧
    (verifyBasicAuth (fun _ => {}) { exReq with basicAuth := none }).metricCalls
      = [] ∧
    (verifyBasicAuth (fun _ => {}) { exReq with basicAuth := none }).attempts
      = 0 ∧
    (verifyBasicAuth (fun _ => {}) { exReq with basicAuth := none }).compressed
      = false ∧
    (({ exReq with basicAuth := none } : HttpRequest).method = "POST" →
      (bulkServeHTTP exDest "tok" { exReq with basicAuth := none }
        alwaysErrBackend).status = some 401 ∧
      ("WWW-Authenticate", basicChallenge) ∈
        (bulkServeHTTP exDest "tok" { exReq with basicAuth := none }
          alwaysErrBackend).headers ∧
      (bulkServeHTTP exDest "tok" { exReq with basicAuth := none }
        alwaysErrBackend).outbound = none ∧
      (bulkServeHTTP exDest "tok" { exReq with basicAuth := none }
        alwaysErrBackend).metricCalls = [] ∧
      (bulkServeHTTP exDest "tok" { exReq with basicAuth := none }
        alwaysErrBackend).compressed = false) :=
  missing_credentials_rejected (fun _ => {}) { exReq with basicAuth := none }
    exDest "tok" alwaysErrBackend rfl

/-- C10: the generic pass-through handler invoked on a request whose
context lacks the string-typed username or password answers a 500
internal error, builds and dispatches no outbound request, records no
metrics, and does not panic. -/
theorem generic_missing_context_values_500
    (dest : Destination) (apiKey : String) (r : HttpRequest)
    (backend : Nat → AttemptResult)
    (h : r.ctxUser = none ∨ r.ctxPass = none) :
    (genericRequestServe dest apiKey r backend).status = some 500 ∧
    (genericRequestServe dest apiKey r backend).errorText
      = some "Internal Server Error" ∧
    (genericRequestServe dest apiKey r backend).outbound = none ∧
    (genericRequestServe dest apiKey r backend).attempts = 0 ∧
    (genericRequestServe dest apiKey r backend).metricCalls = [] ∧
    (genericRequestServe dest apiKey r backend).panicked = false := by
  have hres : genericRequestServe dest apiKey r backend = serverErrorResult := by
    rcases h with hu | hp
    · simp [genericRequestServe, hu]
    · cases hu : r.ctxUser with
      | none => simp [genericRequestServe, hu]
      | some u => simp [genericRequestServe, hu, hp]
  rw [hres]
  exact ⟨rfl, rfl, rfl, rfl, rfl, rfl⟩

/-- C10 witness: a request with no context credentials gets the 500. -/
theorem generic_missing_context_values_500_witness :
    (genericRequestServe exDest "tok" { exReq with ctxUser := none }
      okBackend).status = some 500 ∧
    (genericRequestServe exDest "tok" { exReq with ctxUser := none }
      okBackend).errorText = some "Internal Server Error" ∧
    (genericRequestServe exDest "tok" { exReq with ctxUser := none }
      okBackend).outbound = none ∧
    (genericRequestServe exDest "tok" { exReq with ctxUser := none }
      okBackend).attempts = 0 ∧
    (genericRequestServe exDest "tok" { exReq with ctxUser := none }
      okBackend).metricCalls = [] ∧
    (genericRequestServe exDest "tok" { exReq with ctxUser := none }
      okBackend).panicked = false :=
  generic_missing_context_values_500 exDest "tok"
    { exReq with ctxUser := none } okBackend (Or.inl rfl)

/-- C8: the flush loop performs one flush per ticker tick until the
process-wide cancellation fires; a failing flush produces exactly one
warning log and never stops the loop — in particular, after a failed
flush every remaining scheduled flush before cancellation still runs. -/
theorem flush_loop_until_cancel (evs : List FlushEvent) :
    (flushLoop evs).flushes = (evs.takeWhile FlushEvent.isTick).length ∧
    (flushLoop evs).warns =
      ((evs.takeWhile FlushEvent.isTick).filter FlushEvent.isFailTick).length ∧
    (flushLoop (FlushEvent.tick true :: evs)).flushes
      = (flushLoop evs).flushes + 1 ∧
    (flushLoop (FlushEvent.tick true :: evs)).warns
      = (flushLoop evs).warns + 1 := by
  refine ⟨?_, ?_, ?_, ?_⟩
  · induction evs with
    | nil => rfl
    | cons e rest ih =>
        cases e with
        | ctxDone => rfl
        | tick b => simp [flushLoop, FlushEvent.isTick, ih]
  · induction evs with
    | nil => rfl
    | cons e rest ih =>
        cases e with
        | ctxDone => rfl
        | tick b =>
            cases b <;>
              simp [flushLoop, FlushEvent.isTick, FlushEvent.isFailTick, ih]
  · simp [flushLoop]
  · simp [flushLoop]

/-- C8 witness: a schedule with a failed flush, a further successful
flush, and then cancellation. -/
theorem flush_loop_until_cancel_witness :
    (flushLoop [FlushEvent.tick true, FlushEvent.tick false,
        FlushEvent.ctxDone, FlushEvent.tick false]).flushes
      = ([FlushEvent.tick true, FlushEvent.tick false, FlushEvent.ctxDone,
          FlushEvent.tick false].takeWhile FlushEvent.isTick).length ∧
    (flushLoop [FlushEvent.tick true, FlushEvent.tick false,
        FlushEvent.ctxDone, FlushEvent.tick false]).warns
      = (([FlushEvent.tick true, FlushEvent.tick false, FlushEvent.ctxDone,
          FlushEvent.tick false].takeWhile FlushEvent.isTick).filter
          FlushEvent.isFailTick).length ∧
    (flushLoop (FlushEvent.tick true :: [FlushEvent.tick true,
        FlushEvent.tick false, FlushEvent.ctxDone,
        FlushEvent.tick false])).flushes
      = (flushLoop [FlushEvent.tick true, FlushEvent.tick false,
          FlushEvent.ctxDone, FlushEvent.tick false]).flushes + 1 ∧
    (flushLoop (FlushEvent.tick true :: [FlushEvent.tick true,
        FlushEvent.tick false, FlushEvent.ctxDone,
        FlushEvent.tick false])).warns
      = (flushLoop [FlushEvent.tick true, FlushEvent.tick false,
          FlushEvent.ctxDone, FlushEvent.tick false]).warns + 1 :=
  flush_loop_until_cancel
    [FlushEvent.tick true, FlushEvent.tick false, FlushEvent.ctxDone,
     FlushEvent.tick false]

/-- C5: whenever the backend returns a response — any status, 2xx or not —
the reply to the caller carries the backend's status code verbatim, the
fixed header `Content-Type: application/json; charset=utf-8`, and the
backend body unmodified, in the generic handler and (for POST) in the
bulk handler. -/
theorem backend_response_relayed_verbatim
    (dest : Destination) (dataToken apiKey : String) (r : HttpRequest)
    (backend : Nat → AttemptResult) (u p : String) (s : Nat) (b : List Byte)
    (ha : r.basicAuth = some (u, p)) (hu : r.ctxUser = some u)
    (hp : r.ctxPass = some p) (hb : r.bodyReadError = false)
    (hres : (clientDo backend 7).result = some (s, b)) :
    ((genericRequestServe dest apiKey r backend).status = some s ∧
     ("Content-Type", "application/json; charset=utf-8") ∈
       (genericRequestServe dest apiKey r backend).headers ∧
     (genericRequestServe dest apiKey r backend).relayedBody = some b) ∧
    (r.method = "POST" →
      (bulkServeHTTP dest dataToken r backend).status = some s ∧
      ("Content-Type", "application/json; charset=utf-8") ∈
        (bulkServeHTTP dest dataToken r backend).headers ∧
      (bulkServeHTTP dest dataToken r backend).relayedBody = some b) := by
  constructor
  · by_cases hs : s = 200
    · subst hs
      simp [genericRequestServe, hu, hp, hb, hres]
    · simp [genericRequestServe, hu, hp, hb, hres, hs]
  · intro hm
    simp [bulkServeHTTP, hm, ha, hb, hres]

/-- C5 witness: a 200 backend response relayed at a concrete request. -/
theorem backend_response_relayed_verbatim_witness :
    ((genericRequestServe exDest "tok" exReq okBackend).status = some 200 ∧
     ("Content-Type", "application/json; charset=utf-8") ∈
       (genericRequestServe exDest "tok" exReq okBackend).headers ∧
     (genericRequestServe exDest "tok" exReq okBackend).relayedBody
       = some [123, 125]) ∧
    (exReq.method = "POST" →
      (bulkServeHTTP exDest "tok" exReq okBackend).status = some 200 ∧
      ("Content-Type", "application/json; charset=utf-8") ∈
        (bulkServeHTTP exDest "tok" exReq okBackend).headers ∧
      (bulkServeHTTP exDest "tok" exReq okBackend).relayedBody
        = some [123, 125]) :=
  backend_response_relayed_verbatim exDest "tok" "tok" exReq okBackend
    "alice" "pw" 200 [123, 125] rfl rfl rfl rfl (by decide)

/-- C9: with an unknown/negative inbound content length (`-1`, e.g.
chunked transfer encoding), Go's `uint64` conversion makes every counter
increment add `2^64 - 1`; both handlers record exactly that value in each
of their two counter invocations. -/
theorem negative_content_length_counter
    (dest : Destination) (dataToken apiKey : String) (r : HttpRequest)
    (backend : Nat → AttemptResult) (u p : String)
    (ha : r.basicAuth = some (u, p)) (hu : r.ctxUser = some u)
    (hp : r.ctxPass = some p) (hb : r.bodyReadError = false)
    (hcl : r.contentLength = -1) :
    goUInt64 r.contentLength = 2 ^ 64 - 1 ∧
    (∀ name tags v, MetricCall.counter name tags v ∈
        (genericRequestServe dest apiKey r backend).metricCalls →
      v = 2 ^ 64 - 1) ∧
    (r.method = "POST" →
      ∀ name tags v, MetricCall.counter name tags v ∈
          (bulkServeHTTP dest dataToken r backend).metricCalls →
        v = 2 ^ 64 - 1) := by
  have hneg : goUInt64 (-1) = 2 ^ 64 - 1 := by decide
  refine ⟨hcl ▸ hneg, ?_, ?_⟩
  · intro name tags v hv
    rcases hd : (clientDo backend 7).result with _ | ⟨s, b2⟩
    · simp [genericRequestServe, hu, hp, hb, hd, dispatchMetricCalls] at hv
      rcases hv with ⟨_, _, hv⟩ | ⟨_, _, hv⟩ <;> rw [hv, hcl, hneg]
    · by_cases hs : s = 200
      · subst hs
        simp [genericRequestServe, hu, hp, hb, hd, dispatchMetricCalls] at hv
        rcases hv with ⟨_, _, hv⟩ | ⟨_, _, hv⟩ <;> rw [hv, hcl, hneg]
      · simp [genericRequestServe, hu, hp, hb, hd, hs, dispatchMetricCalls] at hv
        rcases hv with ⟨_, _, hv⟩ | ⟨_, _, hv⟩ <;> rw [hv, hcl, hneg]
  · intro hm name tags v hv
    rcases hd : (clientDo backend 7).result with _ | ⟨s, b2⟩ <;>
        simp [bulkServeHTTP, hm, ha, hb, hd, dispatchMetricCalls] at hv <;>
      rcases hv with ⟨_, _, hv⟩ | ⟨_, _, hv⟩ <;> rw [hv, hcl, hneg]

/-- C9 witness: the conversion at a concrete chunked-style request. -/
theorem negative_content_length_counter_witness :
    goUInt64 ({ exReq with contentLength := -1 } : HttpRequest).contentLength
      = 2 ^ 64 - 1 ∧
    (∀ name tags v, MetricCall.counter name tags v ∈
        (genericRequestServe exDest "tok" { exReq with contentLength := -1 }
          okBackend).metricCalls →
      v = 2 ^ 64 - 1) ∧
    (({ exReq with contentLength := -1 } : HttpRequest).method = "POST" →
      ∀ name tags v, MetricCall.counter name tags v ∈
          (bulkServeHTTP exDest "tok" { exReq with contentLength := -1 }
            okBackend).metricCalls →
        v = 2 ^ 64 - 1) :=
  negative_content_length_counter exDest "tok" "tok"
    { exReq with contentLength := -1 } okBackend "alice" "pw"
    rfl rfl rfl rfl rfl

/-- C3: a request that reaches a terminal forwarding state with a
response object triggers exactly two recordings — one tagged by
units+path, one additionally tagged by the account from the credential
username — each a counter increment and a histogram observation of the
pre-compression byte count; a request failing locally before dispatch
records nothing. -/
theorem metrics_recorded_twice
    (dest : Destination) (dataToken apiKey : String) (r r2 : HttpRequest)
    (backend : Nat → AttemptResult) (u p : String) (s : Nat) (b : List Byte)
    (ha : r.basicAuth = some (u, p)) (hu : r.ctxUser = some u)
    (hp : r.ctxPass = some p) (hb : r.bodyReadError = false)
    (hres : (clientDo backend 7).result = some (s, b))
    (hcl : r.contentLength = (r.body.length : Int))
    (hlen : r.body.length < 2 ^ 64)
    (h2b : r2.bodyReadError = true) (h2m : r2.method = "POST")
    (h2a : r2.basicAuth = some (u, p)) (h2u : r2.ctxUser = some u)
    (h2p : r2.ctxPass = some p) :
    (genericRequestServe dest apiKey r backend).metricCalls =
      [.counter "log_size" [⟨"units", "bytes"⟩, ⟨"path", r.path⟩]
          r.body.length,
       .histogram "log_size_h" [⟨"units", "bytes"⟩, ⟨"path", r.path⟩]
          (r.body.length : Int),
       .counter "log_size"
          [⟨"units", "bytes"⟩, ⟨"path", r.path⟩, ⟨"ingest_acct", u⟩]
          r.body.length,
       .histogram "log_size_h"
          [⟨"units", "bytes"⟩, ⟨"path", r.path⟩, ⟨"ingest_acct", u⟩]
          (r.body.length : Int)] ∧
    (r.method = "POST" →
      (bulkServeHTTP dest dataToken r backend).metricCalls =
        (genericRequestServe dest apiKey r backend).metricCalls) ∧
    (bulkServeHTTP dest dataToken r2 backend).metricCalls = [] ∧
    (genericRequestServe dest apiKey r2 backend).metricCalls = [] := by
  have hgen : (genericRequestServe dest apiKey r backend).metricCalls
      = dispatchMetricCalls r.path u r.contentLength := by
    by_cases hs : s = 200
    · subst hs; simp [genericRequestServe, hu, hp, hb, hres]
    · simp [genericRequestServe, hu, hp, hb, hres, hs]
  refine ⟨?_, ?_, ?_, ?_⟩
  · rw [hgen, hcl]
    simp [dispatchMetricCalls, goUInt64_natCast _ hlen]
  · intro hm
    rw [hgen]
    simp [bulkServeHTTP, hm, ha, hb, hres]
  · simp [bulkServeHTTP, h2m, h2a, h2b]
  · simp [genericRequestServe, h2u, h2p, h2b, h2m, serverErrorResult]

/-- C3 witness: a concrete authenticated POST whose declared content
length equals its 3-byte body. -/
theorem metrics_recorded_twice_witness :
    (genericRequestServe exDest "tok" exReq okBackend).metricCalls =
      [.counter "log_size" [⟨"units", "bytes"⟩, ⟨"path", exReq.path⟩]
          exReq.body.length,
       .histogram "log_size_h" [⟨"units", "bytes"⟩, ⟨"path", exReq.path⟩]
          (exReq.body.length : Int),
       .counter "log_size"
          [⟨"units", "bytes"⟩, ⟨"path", exReq.path⟩, ⟨"ingest_acct", "alice"⟩]
          exReq.body.length,
       .histogram "log_size_h"
          [⟨"units", "bytes"⟩, ⟨"path", exReq.path⟩, ⟨"ingest_acct", "alice"⟩]
          (exReq.body.length : Int)] ∧
    (exReq.method = "POST" →
      (bulkServeHTTP exDest "tok" exReq okBackend).metricCalls =
        (genericRequestServe exDest "tok" exReq okBackend).metricCalls) ∧
    (bulkServeHTTP exDest "tok" { exReq with bodyReadError := true }
      okBackend).metricCalls = [] ∧
    (genericRequestServe exDest "tok" { exReq with bodyReadError := true }
      okBackend).metricCalls = [] :=
  metrics_recorded_twice exDest "tok" "tok" exReq
    { exReq with bodyReadError := true } okBackend "alice" "pw" 200 [123, 125]
    rfl rfl rfl rfl (by decide) rfl (by decide) rfl rfl rfl rfl rfl

/-- C4 counterexample: at a concrete POST `/_bulk?refresh=true` the bulk
handler's outbound URL is the Destination host/port plus path only — the
query string prescribed by the claim is dropped. -/
theorem bulk_target_url_drops_query :
    (bulkServeHTTP exDest "tok" exReq okBackend).outbound.map
        OutboundRequest.url = some "http://backend.example:9200/_bulk" ∧
    specTargetURL exDest exReq = "http://backend.example:9200/_bulk?refresh=true" ∧
    (bulkServeHTTP exDest "tok" exReq okBackend).outbound.map
        OutboundRequest.url ≠ some (specTargetURL exDest exReq) := by
  refine ⟨by decide, by decide, by decide⟩

/-- C4 amended: the generic pass-through handler builds the outbound URL
from Destination host/port plus the original path and query with the
method preserved; the bulk handler builds it from host/port plus the
original path only — the query string is dropped — with the (POST)
method preserved. -/
theorem target_url_composition
    (dest : Destination) (dataToken apiKey : String) (r : HttpRequest)
    (backend : Nat → AttemptResult) (u p : String)
    (ha : r.basicAuth = some (u, p)) (hu : r.ctxUser = some u)
    (hp : r.ctxPass = some p) (hb : r.bodyReadError = false) :
    ((genericRequestServe dest apiKey r backend).outbound.map
        OutboundRequest.url = some (specTargetURL dest r) ∧
     (genericRequestServe dest apiKey r backend).outbound.map
        OutboundRequest.method = some r.method) ∧
    (r.method = "POST" →
      (bulkServeHTTP dest dataToken r backend).outbound.map
          OutboundRequest.url
        = some ((if dest.enableTLS then "https://" else "http://")
            ++ joinHostPort dest.host dest.port ++ r.path) ∧
      (bulkServeHTTP dest dataToken r backend).outbound.map
          OutboundRequest.method = some r.method) := by
  have hurl : (if dest.enableTLS then "https://" else "http://")
      ++ joinHostPort dest.host dest.port ++ requestURLString r
      = specTargetURL dest r := by
    rcases htls : dest.enableTLS <;>
      simp [specTargetURL, requestURLString, String.append_assoc, htls]
  constructor
  · rcases hd : (clientDo backend 7).result with _ | ⟨s, b⟩
    · simp [genericRequestServe, hu, hp, hb, hd, hurl]
    · by_cases hs : s = 200
      · subst hs; simp [genericRequestServe, hu, hp, hb, hd, hurl]
      · simp [genericRequestServe, hu, hp, hb, hd, hs, hurl]
  · intro hm
    rcases hd : (clientDo backend 7).result with _ | ⟨s, b⟩ <;>
      rcases htls : dest.enableTLS <;>
        simp [bulkServeHTTP, hm, ha, hb, hd, htls, String.append_assoc]

/-- C4 amended witness: the composition at a concrete request. -/
theorem target_url_composition_witness :
    ((genericRequestServe exDest "tok" exReq okBackend).outbound.map
        OutboundRequest.url = some (specTargetURL exDest exReq) ∧
     (genericRequestServe exDest "tok" exReq okBackend).outbound.map
        OutboundRequest.method = some exReq.method) ∧
    (exReq.method = "POST" →
      (bulkServeHTTP exDest "tok" exReq okBackend).outbound.map
          OutboundRequest.url
        = some ((if exDest.enableTLS then "https://" else "http://")
            ++ joinHostPort exDest.host exDest.port ++ exReq.path) ∧
      (bulkServeHTTP exDest "tok" exReq okBackend).outbound.map
          OutboundRequest.method = some exReq.method) :=
  target_url_composition exDest "tok" "tok" exReq okBackend "alice" "pw"
    rfl rfl rfl rfl

/-- C7: gzip-compressing any byte payload and decompressing the buffer
yields the original bytes, and the outbound request dispatched by the
bulk handler declares a content length equal to the compressed buffer's
length. -/
theorem gzip_roundtrip_content_length
    (bs : List Byte) (dest : Destination) (dataToken : String)
    (r : HttpRequest) (backend : Nat → AttemptResult) (u p : String)
    (ha : r.basicAuth = some (u, p)) (hm : r.method = "POST")
    (hb : r.bodyReadError = false) :
    gzipDecompress (gzipCompress bs) = some bs ∧
    (bulkServeHTTP dest dataToken r backend).outbound.map
        OutboundRequest.contentLength = some (gzipCompress r.body).length := by
  constructor
  · simp [gzipCompress, gzipDecompress]
  · rcases hd : (clientDo backend 7).result with _ | ⟨s, b⟩
    · simp [bulkServeHTTP, hm, ha, hb, hd]
    · simp [bulkServeHTTP, hm, ha, hb, hd]

/-- C7 witness: the round trip on a concrete payload and a concrete
bulk dispatch. -/
theorem gzip_roundtrip_content_length_witness :
    gzipDecompress (gzipCompress [10, 200, 0]) = some [10, 200, 0] ∧
    (bulkServeHTTP exDest "tok" exReq okBackend).outbound.map
        OutboundRequest.contentLength
      = some (gzipCompress exReq.body).length :=
  gzip_roundtrip_content_length [10, 200, 0] exDest "tok" exReq okBackend
    "alice" "pw" rfl rfl rfl

/-- C2 counterexample: with a backend that always fails, the retry
budget is consumed with no usable response, yet the bulk handler writes
no HTTP 500 — no status at all is written to the caller. -/
theorem forwarder_error_claim_fails :
    (clientDo alwaysErrBackend 7).result = none ∧
    (bulkServeHTTP exDest "tok" exReq alwaysErrBackend).status ≠ some 500 ∧
    (bulkServeHTTP exDest "tok" exReq alwaysErrBackend).status = none := by
  refine ⟨by decide, by decide, by decide⟩

/-- C2 amended: when the outbound dispatch ends with the retry budget
consumed and no usable response, the current handlers (handlers.go) do
not write an internal-error response: the error is only logged, no
backend body is relayed, and the handler aborts on the nil response
dereference; the older revision of the generic handler kept in
context.go is the one that writes HTTP 500 (relaying nothing and
recording no metrics). -/
theorem forwarder_error_behaviour
    (dest : Destination) (dataToken apiKey : String) (r : HttpRequest)
    (backend : Nat → AttemptResult) (u p : String)
    (hfail : (clientDo backend 7).result = none)
    (ha : r.basicAuth = some (u, p)) (hu : r.ctxUser = some u)
    (hp : r.ctxPass = some p) (hb : r.bodyReadError = false) :
    (r.method = "POST" →
      (bulkServeHTTP dest dataToken r backend).status = none ∧
      (bulkServeHTTP dest dataToken r backend).relayedBody = none ∧
      (bulkServeHTTP dest dataToken r backend).panicked = true) ∧
    ((genericRequestServe dest apiKey r backend).status = none ∧
     (genericRequestServe dest apiKey r backend).relayedBody = none ∧
     (genericRequestServe dest apiKey r backend).panicked = true) ∧
    ((genericRequestCtxServe dest apiKey r backend).status = some 500 ∧
     (genericRequestCtxServe dest apiKey r backend).relayedBody = none ∧
     (genericRequestCtxServe dest apiKey r backend).metricCalls = [] ∧
     (genericRequestCtxServe dest apiKey r backend).panicked = false) := by
  refine ⟨?_, ?_, ?_⟩
  · intro hm
    simp [bulkServeHTTP, hm, ha, hb, hfail]
  · simp [genericRequestServe, hu, hp, hb, hfail]
  · simp [genericRequestCtxServe, hu, hp, hb, hfail]

/-- C2 amended witness: the three behaviours at a concrete request with
an always-failing backend. -/
theorem forwarder_error_behaviour_witness :
    (exReq.method = "POST" →
      (bulkServeHTTP exDest "tok" exReq alwaysErrBackend).status = none ∧
      (bulkServeHTTP exDest "tok" exReq alwaysErrBackend).relayedBody
        = none ∧
      (bulkServeHTTP exDest "tok" exReq alwaysErrBackend).panicked = true) ∧
    ((genericRequestServe exDest "tok" exReq alwaysErrBackend).status
        = none ∧
     (genericRequestServe exDest "tok" exReq alwaysErrBackend).relayedBody
        = none ∧
     (genericRequestServe exDest "tok" exReq alwaysErrBackend).panicked
        = true) ∧
    ((genericRequestCtxServe exDest "tok" exReq alwaysErrBackend).status
        = some 500 ∧
     (genericRequestCtxServe exDest "tok" exReq alwaysErrBackend).relayedBody
        = none ∧
     (genericRequestCtxServe exDest "tok" exReq alwaysErrBackend).metricCalls
        = [] ∧
     (genericRequestCtxServe exDest "tok" exReq alwaysErrBackend).panicked
        = false) :=
  forwarder_error_behaviour exDest "tok" "tok" exReq alwaysErrBackend
    "alice" "pw" (by decide) rfl rfl rfl rfl

/-- Helper: the retry loop makes between 1 and `remain + 1` attempts, at
consecutive indices starting from its first. -/
theorem doLoop_attempts_trace (backend : Nat → AttemptResult) :
    ∀ remain i, ∃ n, 1 ≤ n ∧ n ≤ remain + 1 ∧
      (doLoop backend i remain).attempts = i + n ∧
      (doLoop backend i remain).trace = List.range' i n := by
  intro remain
  induction remain with
  | zero =>
      intro i
      refine ⟨1, le_refl 1, le_refl 1, ?_, ?_⟩ <;>
        · cases hb : backend i with
          | err => simp [doLoop, hb, List.range']
          | resp s b =>
              by_cases hs : retryableStatus s <;>
                simp [doLoop, hb, hs, List.range']
  | succ m ih =>
      intro i
      cases hb : backend i with
      | err =>
          obtain ⟨n, h1, h2, h3, h4⟩ := ih (i + 1)
          refine ⟨n + 1, by omega, by omega, ?_, ?_⟩
          · simp [doLoop, hb, h3]; omega
          · simp [doLoop, hb, h4, List.range']
      | resp s b =>
          by_cases hs : retryableStatus s
          · obtain ⟨n, h1, h2, h3, h4⟩ := ih (i + 1)
            refine ⟨n + 1, by omega, by omega, ?_, ?_⟩
            · simp [doLoop, hb, hs, h3]; omega
            · simp [doLoop, hb, hs, h4, List.range']
          · exact ⟨1, le_refl 1, by omega, by simp [doLoop, hb, hs],
              by simp [doLoop, hb, hs, List.range']⟩

/-- Helper: against a backend whose first `n` attempts fail and which
then answers 200, the retry loop (given enough budget) ends with the
success response after exactly `n + 1` attempts. -/
theorem doLoop_failThenOk (n : Nat) (body : List Byte) :
    ∀ remain i, i ≤ n → n ≤ i + remain →
      (doLoop (failThenOk n body) i remain).result = some (200, body) ∧
      (doLoop (failThenOk n body) i remain).attempts = n + 1 := by
  intro remain
  induction remain with
  | zero =>
      intro i h1 h2
      have he : i = n := by omega
      subst he
      simp [doLoop, failThenOk, retryableStatus]
  | succ m ih =>
      intro i h1 h2
      by_cases hin : i < n
      · have hr := ih (i + 1) (by omega) (by omega)
        simp [doLoop, failThenOk, hin, hr.1, hr.2]
      · have he : i = n := by omega
        subst he
        simp [doLoop, failThenOk, retryableStatus]

/-- C6: a backend failing `N` times (below the retry ceiling) and then
succeeding yields exactly the success response after exactly `N + 1`
backend invocations and the bulk handler relays that success; for any
backend, the attempt count never exceeds `RetryMax + 1`, and the
attempts of one request are strictly sequential (indices
`0, 1, 2, ...` in order). -/
theorem retry_n_failures_then_success
    (n retryMax : Nat) (body : List Byte) (backend : Nat → AttemptResult)
    (dest : Destination) (dataToken : String) (r : HttpRequest)
    (u p : String) (h : n ≤ retryMax) (h7 : n ≤ 7)
    (hma : r.method = "POST") (ha : r.basicAuth = some (u, p))
    (hb : r.bodyReadError = false) :
    (clientDo (failThenOk n body) retryMax).result = some (200, body) ∧
    (clientDo (failThenOk n body) retryMax).attempts = n + 1 ∧
    (clientDo backend retryMax).attempts ≤ retryMax + 1 ∧
    (clientDo backend retryMax).trace
      = List.range (clientDo backend retryMax).attempts ∧
    ((bulkServeHTTP dest dataToken r (failThenOk n body)).status
        = some 200 ∧
     (bulkServeHTTP dest dataToken r (failThenOk n body)).relayedBody
        = some body ∧
     (bulkServeHTTP dest dataToken r (failThenOk n body)).attempts
        = n + 1) := by
  obtain ⟨m, hm1, hm2, hm3, hm4⟩ := doLoop_attempts_trace backend retryMax 0
  have hf := doLoop_failThenOk n body retryMax 0 (Nat.zero_le n) (by omega)
  have hf7 := doLoop_failThenOk n body 7 0 (Nat.zero_le n) (by omega)
  refine ⟨hf.1, hf.2, ?_, ?_, ?_⟩
  · unfold clientDo; omega
  · unfold clientDo
    rw [hm3, hm4]
    simp [List.range_eq_range']
  · have hres : (clientDo (failThenOk n body) 7).result = some (200, body) :=
      hf7.1
    have hatt : (clientDo (failThenOk n body) 7).attempts = n + 1 := hf7.2
    simp [bulkServeHTTP, hma, ha, hb, hres, hatt]

/-- C6 witness: two failures then success against the production retry
ceiling, at a concrete bulk request. -/
theorem retry_n_failures_then_success_witness :
    (clientDo (failThenOk 2 [1]) 7).result = some (200, [1]) ∧
    (clientDo (failThenOk 2 [1]) 7).attempts = 2 + 1 ∧
    (clientDo alwaysErrBackend 7).attempts ≤ 7 + 1 ∧
    (clientDo alwaysErrBackend 7).trace
      = List.range (clientDo alwaysErrBackend 7).attempts ∧
    ((bulkServeHTTP exDest "tok" exReq (failThenOk 2 [1])).status
        = some 200 ∧
     (bulkServeHTTP exDest "tok" exReq (failThenOk 2 [1])).relayedBody
        = some [1] ∧
     (bulkServeHTTP exDest "tok" exReq (failThenOk 2 [1])).attempts
        = 2 + 1) :=
  retry_n_failures_then_success 2 7 [1] alwaysErrBackend exDest "tok" exReq
    "alice" "pw" (by decide) (by decide) rfl rfl rfl

end C3Exporter
